import Mathlib

/-!
# Verification of the cfor command-selection and terminal-injection pipeline

Shallow embedding of the core of the `cfor` terminal assistant
(`ui.go`, `openai.go`, `openai_cost.go`, `cmd.go`) together with proofs
about the selector state machine, the completion client, the cost
estimator, the terminal injector and the orchestrator loop.

Modelling conventions:
* Go strings become `String`, Go slices become `List`.
* Go `int` values that can become negative (the selector cursor) become `Int`.
* Go `float64` cost arithmetic is modelled exactly over `ℚ`; the constants
  of the per-token cost table are the exact decimal values of the source.
* Out-of-range slice indexing (a Go run-time panic) is modelled by `Option`:
  `none` marks a panic.
* External effects (environment variables, the network, ioctl syscalls and
  the interactive key stream) are passed in explicitly as oracle values, and
  the calls the code makes to them are recorded in the function results.
-/

/-! ## Selector state machine (`ui.go`) -/

/-- Model of `CmdEntry` from `openai.go`: one suggested command with its comment. -/
structure CmdEntry where
  cmd : String
  comment : String
deriving DecidableEq, Repr

/-- Model of `Cmds` from `openai.go`: the structured response payload. -/
structure Cmds where
  cmds : List CmdEntry
deriving DecidableEq, Repr

/-- The `CmdSelector` bubbletea model from `ui.go`.  The cursor is an `Int`
because the Go code can drive it to `len(cmds)-1 = -1` on an empty list. -/
structure CmdSelector where
  cmds : List String
  cursor : Int
  selected : String
  quit : Bool
  rerun : Bool
deriving DecidableEq, Repr

/-- Model of `NewCmdSelector` from `ui.go`. -/
def NewCmdSelector (cmds : List String) : CmdSelector :=
  { cmds := cmds, cursor := 0, selected := "", quit := false, rerun := false }

/-- Go slice indexing `l[i]` with an `Int` index: `none` models the
out-of-range panic. -/
def listGetStr (l : List String) (i : Int) : Option String :=
  if i < 0 then none else l.get? i.toNat

/-- Same indexing for `[]CmdEntry`. -/
def listGetEntry (l : List CmdEntry) (i : Int) : Option CmdEntry :=
  if i < 0 then none else l.get? i.toNat

/-- Model of `CmdSelector.Update` from `ui.go`, for one `tea.KeyMsg` whose
`msg.String()` is `key`.  The returned `Bool` is `true` when the Go code
returns `tea.Quit`.  `none` models the out-of-range panic of
`m.cmds[m.cursor]`. -/
def CmdSelector.Update (m : CmdSelector) (key : String) : Option (CmdSelector × Bool) :=
  if key = "ctrl+c" ∨ key = "q" then
    some ({ m with quit := true }, true)
  else if key = "up" ∨ key = "k" then
    some (if m.cursor > 0 then { m with cursor := m.cursor - 1 }
          else { m with cursor := (m.cmds.length : Int) - 1 }, false)
  else if key = "down" ∨ key = "j" then
    some (if m.cursor < (m.cmds.length : Int) - 1 then { m with cursor := m.cursor + 1 }
          else { m with cursor := 0 }, false)
  else if key = "r" then
    some ({ m with rerun := true }, true)
  else if key = "enter" ∨ key = " " then
    match listGetStr m.cmds m.cursor with
    | some s => some ({ m with selected := s }, true)
    | none => none
  else
    some (m, false)

/-- Result of running the bubbletea event loop on a finite key stream. -/
inductive RunOut where
  | panicked
  | running (m : CmdSelector)
  | done (m : CmdSelector)
deriving DecidableEq, Repr

/-- The `tea.Program.Run` loop: feed key messages to `Update` until it
returns `tea.Quit` (`done`), the stream runs out (`running`, the real
program would still block), or an update panics. -/
def runKeys (m : CmdSelector) : List String → RunOut
  | [] => .running m
  | k :: ks =>
    match m.Update k with
    | none => .panicked
    | some (m', true) => .done m'
    | some (m', false) => runKeys m' ks

/-- The `maxCmdLength` computation at the top of `SelectCmd` in `ui.go`. -/
def maxCmdLength (cmds : List CmdEntry) : Nat :=
  cmds.foldl (fun acc e => if e.cmd.length > acc then e.cmd.length else acc) 0

/-- The displayed rows built by `SelectCmd`: the command, padded so all
comments start in a common column, followed by `# comment`; entries with an
empty comment display the bare command. -/
def commentedCmds (cmds : List CmdEntry) : List String :=
  cmds.map fun e =>
    if e.comment ≠ "" then
      let padding := String.mk (List.replicate (maxCmdLength cmds - e.cmd.length + 2) ' ')
      e.cmd ++ padding ++ "# " ++ e.comment
    else
      e.cmd

/-- Control-flow results of `SelectCmd`: `QuitError` and `RerunError`. -/
inductive SelErr where
  | quit
  | rerun
deriving DecidableEq, Repr

/-- Outcome of one `SelectCmd` call. -/
inductive SelOut where
  | panicked
  | blocked
  | err (e : SelErr)
  | ok (cmd : String)
deriving DecidableEq, Repr

/-- The tail of `SelectCmd` in `ui.go`, after `p.Run()` has returned with
final model `m`: quit and rerun are mapped to their sentinel errors,
otherwise the function returns `cmds[m.cursor].Cmd` (the bare command of
the entry under the cursor, not the displayed row). -/
def selectFinish (cmds : List CmdEntry) (m : CmdSelector) : SelOut :=
  if m.quit then .err .quit
  else if m.rerun then .err .rerun
  else
    match listGetEntry cmds m.cursor with
    | some e => .ok e.cmd
    | none => .panicked

/-- Model of `SelectCmd` from `ui.go`, driven by the key stream `keys`. -/
def SelectCmd (cmds : List CmdEntry) (keys : List String) : SelOut :=
  match runKeys (NewCmdSelector (commentedCmds cmds)) keys with
  | .panicked => .panicked
  | .running _ => .blocked
  | .done m => selectFinish cmds m

/-- Runs `k` consecutive key events fed through `Update`, propagating a panic. -/
def iterKey (key : String) : Nat → CmdSelector → Option CmdSelector
  | 0, m => some m
  | Nat.succ k, m => (m.Update key).bind fun p => iterKey key k p.1

/-! ## Model allow-list and cost table (`openai_cost.go` / `openai.go`) -/

/-- The `openai.ChatModelGPT4oMini` identifier. -/
def OpenAIModelGPT4oMini : String := "gpt-4o-mini"

/-- The `openai.ChatModelGPT4o` identifier. -/
def OpenAIModelGPT4o : String := "gpt-4o"

/-- The `OpenAISupportedModels` fixed allow-list. -/
def OpenAISupportedModels : List String := [OpenAIModelGPT4oMini, OpenAIModelGPT4o]

/-- Model of `IsSupportedModel`: `slices.Contains(OpenAISupportedModels, model)`. -/
def IsSupportedModel (model : String) : Bool :=
  OpenAISupportedModels.contains model

def OpenAIModelGPT4oMiniInputCostPerToken : ℚ := 2.50 * 1e-6
def OpenAIModelGPT4oMiniCachedInputCostPerToken : ℚ := 1.25 * 1e-6
def OpenAIModelGPT4oMiniOutputCostPerToken : ℚ := 10.00 * 1e-6
def OpenAIModelGPT4oInputCostPerToken : ℚ := 0.150 * 1e-6
def OpenAIModelGPT4oCachedInputCostPerToken : ℚ := 0.075 * 1e-6
def OpenAIModelGPT4oOutputCostPerToken : ℚ := 0.670 * 1e-6

/-- Model of `CostPerToken`: the three independent per-token rates of one model. -/
structure CostPerToken where
  input : ℚ
  cachedInput : ℚ
  output : ℚ
deriving DecidableEq, Repr

/-- The `OpenAIModelCosts` map.  A Go map lookup on a missing key yields the
zero value, so the fallback row is `⟨0, 0, 0⟩`. -/
def OpenAIModelCosts (model : String) : CostPerToken :=
  if model = OpenAIModelGPT4oMini then
    { input := OpenAIModelGPT4oMiniInputCostPerToken,
      cachedInput := OpenAIModelGPT4oMiniCachedInputCostPerToken,
      output := OpenAIModelGPT4oMiniOutputCostPerToken }
  else if model = OpenAIModelGPT4o then
    { input := OpenAIModelGPT4oInputCostPerToken,
      cachedInput := OpenAIModelGPT4oCachedInputCostPerToken,
      output := OpenAIModelGPT4oOutputCostPerToken }
  else
    { input := 0, cachedInput := 0, output := 0 }

/-- The token counters of `openai.CompletionUsage` used by `EstimateCost`. -/
structure Usage where
  promptTokens : Nat
  cachedTokens : Nat
  completionTokens : Nat
deriving DecidableEq, Repr

/-- Model of `EstimateCost` from `openai_cost.go`, with `float64` arithmetic modelled
exactly over `ℚ`. -/
def EstimateCost (model : String) (usage : Usage) : ℚ :=
  let cost := OpenAIModelCosts model
  cost.input * usage.promptTokens +
    cost.cachedInput * usage.cachedTokens +
    cost.output * usage.completionTokens

/-! ## Completion client (`openai.go`) -/

/-- The error structs of `errors.go` that the completion client can return. -/
inductive CforError where
  | apiKeyMissing
  | openAIRequest
  | jsonParse
  | unsupportedModel (model : String)
deriving DecidableEq, Repr

/-- Model of `ChatResult[Cmds]`: the parsed message plus the cost estimate. -/
structure ChatResult where
  message : Cmds
  cost : ℚ
deriving DecidableEq, Repr

/-- The Go zero value `ChatResult[Cmds]{}` returned on every error path. -/
def zeroChatResult : ChatResult := { message := { cmds := [] }, cost := 0 }

/-- Oracle for everything the client reads from outside: the two credential
environment variables, the model-override variable, and what one network
round-trip would produce (`none` = transport/timeout failure; `some (none, u)`
= a response whose body fails to unmarshal; `some (some msg, u)` = a response
parsing to `msg` with usage counters `u`). -/
structure ClientEnv where
  cforKey : String
  openaiKey : String
  modelEnv : String
  network : Option (Option Cmds × Usage)
deriving Repr

/-- Model of `newClient` from `openai.go`: `CFOR_OPENAI_API_KEY` takes precedence,
then `OPENAI_API_KEY`; both empty yields `&APIKeyMissingError{}`.  The `ok`
payload is the api key the client is configured with. -/
def newClient (env : ClientEnv) : Except CforError String :=
  let k0 := env.cforKey
  let apiKey := if k0 = "" then env.openaiKey else k0
  if apiKey = "" then .error .apiKeyMissing else .ok apiKey

/-- Result of `chatStructured`, Go-style: the pair `(result, err)` plus the
list of network calls issued, each recorded with the api key it used. -/
structure ChatOut where
  result : ChatResult × Option CforError
  calls : List String
deriving DecidableEq, Repr

/-- Model of `chatStructured` from `openai.go`: build the client, issue one request,
unmarshal the body, estimate the cost from the reported usage. -/
def chatStructured (env : ClientEnv) (model : String) : ChatOut :=
  match newClient env with
  | .error e => { result := (zeroChatResult, some e), calls := [] }
  | .ok apiKey =>
    match env.network with
    | none =>
      { result := (zeroChatResult, some .openAIRequest), calls := [apiKey] }
    | some (none, _) =>
      { result := (zeroChatResult, some .jsonParse), calls := [apiKey] }
    | some (some msg, usage) =>
      { result := ({ message := msg, cost := EstimateCost model usage }, none),
        calls := [apiKey] }

/-- The model-id resolution at the top of `GenerateCmds`: the
`CFOR_OPENAI_MODEL` override, defaulting to `"gpt-4o"`. -/
def resolveModel (env : ClientEnv) : String :=
  if env.modelEnv = "" then "gpt-4o" else env.modelEnv

/-- Model of `GenerateCmds` from `openai.go`: resolve the model, reject it before any
network traffic when it is not in the allow-list, otherwise run one
structured chat request. -/
def GenerateCmds (env : ClientEnv) : ChatOut :=
  let model := resolveModel env
  if IsSupportedModel model then
    let r := chatStructured env model
    match r.result.2 with
    | some e => { result := (zeroChatResult, some e), calls := r.calls }
    | none => r
  else
    { result := (zeroChatResult, some (.unsupportedModel model)), calls := [] }

/-! ## Terminal injector (`cmd.go`, `injectToPrompt`) -/

/-- The terminal line-discipline settings; only `Lflag` is touched. -/
structure Termios where
  lflag : Nat
deriving DecidableEq, Repr

/-- The `unix.ECHO` bit (the same bit, `0x8`, on linux and darwin). -/
def ECHO : Nat := 8

/-- The terminal device: its settings plus the input queue that `TIOCSTI`
appends synthesized characters to. -/
structure TermState where
  termios : Termios
  input : List Char
deriving DecidableEq, Repr

/-- The four platform-specific numeric identifiers chosen by the
`runtime.GOOS` switch. -/
structure PlatformIds where
  getTermios : Nat
  setTermios : Nat
  tiocsti : Nat
  sysIoctl : Nat
deriving DecidableEq, Repr

/-- The `switch runtime.GOOS` at the top of `injectToPrompt`.  The switch
has no default case, so on any other platform all four identifiers keep
their Go zero value `0`. -/
def platformIds (goos : String) : PlatformIds :=
  if goos = "linux" then
    { getTermios := 0x5401, setTermios := 0x5402, tiocsti := 0x5412, sysIoctl := 16 }
  else if goos = "darwin" then
    { getTermios := 0x40487413, setTermios := 0x80487414,
      tiocsti := 0x80017472, sysIoctl := 54 }
  else
    { getTermios := 0, setTermios := 0, tiocsti := 0, sysIoctl := 0 }

/-- Oracle deciding which terminal-control syscalls succeed: the initial
settings read, the echo-disabling write, the restoring write, and the
`i`-th character-injection syscall. -/
structure InjectEnv where
  getOk : Bool
  setEchoOk : Bool
  restoreOk : Bool
  injectOk : Nat → Bool

/-- One attempted terminal-control operation, with the numeric identifiers
it was issued with. -/
inductive TermOp where
  | get (req : Nat)
  | set (req : Nat) (t : Termios)
  | inject (sys : Nat) (req : Nat) (c : Char)
deriving DecidableEq, Repr

/-- How one `injectToPrompt` call ends.  `platformUnsupported` is the
`PlatformUnsupportedError` of the specification's taxonomy; the source has
no such error and the proofs show it is never produced. -/
inductive InjectResult where
  | ok
  | getSettingsFailed
  | disableEchoFailed
  | injectFailed (c : Char)
  | restoreFailed
  | platformUnsupported
deriving DecidableEq, Repr

/-- Everything one `injectToPrompt` call produces: the returned error (or
`ok`), the final terminal state, the trace of attempted terminal-control
operations, and how many times the original-settings restore write was
attempted. -/
structure InjectOut where
  result : InjectResult
  state : TermState
  trace : List TermOp
  restoreAttempts : Nat
deriving DecidableEq, Repr

/-- The character-injection loop of `injectToPrompt`, entered with echo
already disabled.  On a failed synthesis syscall the original settings are
re-applied (the write's own error is discarded, as in the source) and
`InjectError{Char: c}` is returned; after the last character the original
settings are re-applied and that write's failure is surfaced. -/
def injectLoop (env : InjectEnv) (ids : PlatformIds) (orig : Termios) :
    List Char → Nat → TermState → InjectResult × TermState × List TermOp × Nat
  | [], _, st =>
    let st' := if env.restoreOk then { st with termios := orig } else st
    if env.restoreOk then (.ok, st', [.set ids.setTermios orig], 1)
    else (.restoreFailed, st', [.set ids.setTermios orig], 1)
  | c :: cs, i, st =>
    if env.injectOk i then
      let r := injectLoop env ids orig cs (i + 1) { st with input := st.input ++ [c] }
      (r.1, r.2.1, .inject ids.sysIoctl ids.tiocsti c :: r.2.2.1, r.2.2.2)
    else
      let st' := if env.restoreOk then { st with termios := orig } else st
      (.injectFailed c, st',
        [.inject ids.sysIoctl ids.tiocsti c, .set ids.setTermios orig], 1)

/-- Model of `injectToPrompt` from `cmd.go`: select platform identifiers, read the
current settings, snapshot them, disable echo, synthesize each character of
`cmd` in order, and re-apply the snapshot. -/
def injectToPrompt (goos : String) (env : InjectEnv) (cmd : String)
    (st : TermState) : InjectOut :=
  let ids := platformIds goos
  if env.getOk then
    let originalTermios := st.termios
    let disabled : Termios := { lflag := Nat.ldiff st.termios.lflag ECHO }
    if env.setEchoOk then
      let st1 : TermState := { st with termios := disabled }
      let r := injectLoop env ids originalTermios cmd.data 0 st1
      { result := r.1, state := r.2.1,
        trace := .get ids.getTermios :: .set ids.setTermios disabled :: r.2.2.1,
        restoreAttempts := r.2.2.2 }
    else
      { result := .disableEchoFailed, state := st,
        trace := [.get ids.getTermios, .set ids.setTermios disabled],
        restoreAttempts := 0 }
  else
    { result := .getSettingsFailed, state := st,
      trace := [.get ids.getTermios], restoreAttempts := 0 }

/-! ## Orchestrator (`cmd.go`, one iteration of the `rootCmd` loop) -/

/-- Which user-facing message accompanies a non-zero exit. -/
inductive ExitMsg where
  | apiKeyHint
  | supportedModels
  | generateGeneric
  | selectGeneric
  | injectGeneric
deriving DecidableEq, Repr

/-- How one iteration of the orchestrator loop ends. -/
inductive IterOutcome where
  | exitErr (msg : ExitMsg)
  | exitQuit
  | rerunLoop
  | done
  | panicked
  | blocked
deriving DecidableEq, Repr

/-- Observable effects of one loop iteration: every argument passed to
`UpdateCost` (each such call performs a ledger write, adding the amount to
today's entry), the string the injector was invoked with if it was, and the
iteration outcome. -/
structure IterOut where
  recorded : List ℚ
  injectArg : Option String
  outcome : IterOutcome
deriving DecidableEq, Repr

/-- The error dispatch of the orchestrator on a `GenerateCmds` failure. -/
def errMsgFor (e : CforError) : ExitMsg :=
  match e with
  | .apiKeyMissing => .apiKeyHint
  | .unsupportedModel _ => .supportedModels
  | _ => .generateGeneric

/-- One iteration of the `rootCmd` run loop from `cmd.go`: call
`GenerateCmds`, pass `result.Cost` to `UpdateCost` unconditionally, then
check the error; on success run `SelectCmd` and dispatch on its outcome; on
a selection, hand the selected string to `injectToPrompt`. -/
def runIteration (cenv : ClientEnv) (keys : List String) (goos : String)
    (ienv : InjectEnv) (st : TermState) : IterOut :=
  let g := GenerateCmds cenv
  let result := g.result.1
  let err := g.result.2
  let recorded := [result.cost]
  match err with
  | some e => { recorded := recorded, injectArg := none, outcome := .exitErr (errMsgFor e) }
  | none =>
    match SelectCmd result.message.cmds keys with
    | .panicked => { recorded := recorded, injectArg := none, outcome := .panicked }
    | .blocked => { recorded := recorded, injectArg := none, outcome := .blocked }
    | .err .rerun => { recorded := recorded, injectArg := none, outcome := .rerunLoop }
    | .err .quit => { recorded := recorded, injectArg := none, outcome := .exitQuit }
    | .ok cmd =>
      let out := injectToPrompt goos ienv cmd st
      match out.result with
      | .ok => { recorded := recorded, injectArg := some cmd, outcome := .done }
      | _ => { recorded := recorded, injectArg := some cmd, outcome := .exitErr .injectGeneric }

/-- Observer: the final selector model of a terminated run, if any. -/
def RunOut.final? : RunOut → Option CmdSelector
  | .done m => some m
  | _ => none

/-! ## C2 — the Selector on the empty command set -/

/-- C2: the claim says the Selector never fails and absorbs every input
event on an empty CommandSet as a no-op.  The code violates this: with an
empty set, a select key makes `Update` evaluate `m.cmds[m.cursor]` =
`cmds[0]` on an empty slice, an out-of-range access (run-time panic),
modelled here as `none`/`panicked`.  (An up key on the empty set also sets
the cursor to `-1` rather than leaving the state unchanged.) -/
theorem selector_empty_set_select_out_of_range :
    CmdSelector.Update (NewCmdSelector []) "enter" = none ∧
    SelectCmd [] ["enter"] = SelOut.panicked ∧
    CmdSelector.Update (NewCmdSelector []) "up" =
      some ({ cmds := [], cursor := -1, selected := "", quit := false, rerun := false }, false) := by
  decide

/-! ## C8 / C10 — the cost estimator -/

/-- C8: for every supported model, `EstimateCost` is exactly the additive
three-rate formula over the model's row of the cost table, with no rounding;
the table rows are the fixed per-token constants, and the spec's fixed
example (1000 prompt, 0 cached, 500 completion tokens on gpt-4o) is the
exact table-derived value. -/
theorem estimateCost_additive_formula (model : String) (u : Usage)
    (h : IsSupportedModel model = true) :
    EstimateCost model u =
        (u.promptTokens : ℚ) * (OpenAIModelCosts model).input +
          (u.cachedTokens : ℚ) * (OpenAIModelCosts model).cachedInput +
          (u.completionTokens : ℚ) * (OpenAIModelCosts model).output ∧
      OpenAIModelCosts OpenAIModelGPT4o =
        { input := 0.150 * 1e-6, cachedInput := 0.075 * 1e-6, output := 0.670 * 1e-6 } ∧
      OpenAIModelCosts OpenAIModelGPT4oMini =
        { input := 2.50 * 1e-6, cachedInput := 1.25 * 1e-6, output := 10.00 * 1e-6 } ∧
      EstimateCost OpenAIModelGPT4o
          { promptTokens := 1000, cachedTokens := 0, completionTokens := 500 } =
        1000 * (0.150 * 1e-6) + 0 * (0.075 * 1e-6) + 500 * (0.670 * 1e-6) := by
  have h4o : OpenAIModelCosts OpenAIModelGPT4o =
      { input := 0.150 * 1e-6, cachedInput := 0.075 * 1e-6, output := 0.670 * 1e-6 } := by
    rw [OpenAIModelCosts, if_neg (by decide), if_pos rfl]
    rfl
  have hmini : OpenAIModelCosts OpenAIModelGPT4oMini =
      { input := 2.50 * 1e-6, cachedInput := 1.25 * 1e-6, output := 10.00 * 1e-6 } := by
    rw [OpenAIModelCosts, if_pos rfl]
    rfl
  refine ⟨by simp only [EstimateCost]; ring, h4o, hmini, ?_⟩
  simp only [EstimateCost, h4o]
  push_cast
  ring

/-- C8 witness at the concrete model `gpt-4o-mini` and usage `⟨1, 2, 3⟩`. -/
theorem estimateCost_additive_formula_witness :
    EstimateCost "gpt-4o-mini" ⟨1, 2, 3⟩ =
        (((⟨1, 2, 3⟩ : Usage)).promptTokens : ℚ) * (OpenAIModelCosts "gpt-4o-mini").input +
          (((⟨1, 2, 3⟩ : Usage)).cachedTokens : ℚ) * (OpenAIModelCosts "gpt-4o-mini").cachedInput +
          (((⟨1, 2, 3⟩ : Usage)).completionTokens : ℚ) * (OpenAIModelCosts "gpt-4o-mini").output ∧
      OpenAIModelCosts OpenAIModelGPT4o =
        { input := 0.150 * 1e-6, cachedInput := 0.075 * 1e-6, output := 0.670 * 1e-6 } ∧
      OpenAIModelCosts OpenAIModelGPT4oMini =
        { input := 2.50 * 1e-6, cachedInput := 1.25 * 1e-6, output := 10.00 * 1e-6 } ∧
      EstimateCost OpenAIModelGPT4o
          { promptTokens := 1000, cachedTokens := 0, completionTokens := 500 } =
        1000 * (0.150 * 1e-6) + 0 * (0.075 * 1e-6) + 500 * (0.670 * 1e-6) :=
  estimateCost_additive_formula "gpt-4o-mini" ⟨1, 2, 3⟩ (by decide)

/-- C10: a model identifier absent from the cost table (equivalently, any
unsupported model) hits the Go zero-value row of the map, so `EstimateCost`
returns exactly 0 for every usage record instead of failing. -/
theorem estimateCost_unknown_model_zero (model : String) (u : Usage)
    (h : IsSupportedModel model = false) :
    OpenAIModelCosts model = { input := 0, cachedInput := 0, output := 0 } ∧
    EstimateCost model u = 0 := by
  have hmini : ¬ model = OpenAIModelGPT4oMini := by
    intro e; rw [e] at h; exact absurd h (by decide)
  have h4o : ¬ model = OpenAIModelGPT4o := by
    intro e; rw [e] at h; exact absurd h (by decide)
  have hc : OpenAIModelCosts model = { input := 0, cachedInput := 0, output := 0 } := by
    rw [OpenAIModelCosts, if_neg hmini, if_neg h4o]
  refine ⟨hc, ?_⟩
  simp [EstimateCost, hc]

/-- C10 witness at the concrete unknown model `gpt-5`. -/
theorem estimateCost_unknown_model_zero_witness :
    OpenAIModelCosts "gpt-5" = { input := 0, cachedInput := 0, output := 0 } ∧
    EstimateCost "gpt-5" ⟨7, 8, 9⟩ = 0 :=
  estimateCost_unknown_model_zero "gpt-5" ⟨7, 8, 9⟩ (by decide)

/-! ## C6 / C7 — the completion client's fail-fast checks -/

/-- C6: whenever the resolved model identifier is not in the allow-list,
`GenerateCmds` returns `UnsupportedModelError` carrying that identifier,
with an empty network-call list: the rejection happens before any request
is constructed or issued. -/
theorem generateCmds_unsupported_model_no_network (env : ClientEnv)
    (h : IsSupportedModel (resolveModel env) = false) :
    GenerateCmds env =
      { result := (zeroChatResult, some (CforError.unsupportedModel (resolveModel env))),
        calls := [] } := by
  simp [GenerateCmds, h]

/-- C6 witness with the override variable set to the unsupported id
`gpt-3`. -/
theorem generateCmds_unsupported_model_no_network_witness :
    GenerateCmds { cforKey := "k", openaiKey := "", modelEnv := "gpt-3", network := none } =
      { result := (zeroChatResult,
          some (CforError.unsupportedModel
            (resolveModel { cforKey := "k", openaiKey := "", modelEnv := "gpt-3", network := none }))),
        calls := [] } :=
  generateCmds_unsupported_model_no_network _ (by decide)

/-- C7: credential resolution is override-first over the two environment
variables (the dedicated key wins when non-empty, otherwise the general
key); with both empty the client fails with `APIKeyMissingError` before any
network call, and the orchestrator maps exactly that error kind to the
setup-guidance exit. -/
theorem credentials_override_first_fail_fast (env1 env2 env3 : ClientEnv) (model : String)
    (keys : List String) (goos : String) (ienv : InjectEnv) (st : TermState)
    (h1 : env1.cforKey = "") (h2 : env1.openaiKey = "")
    (hm : IsSupportedModel (resolveModel env1) = true)
    (h3 : env2.cforKey ≠ "") (h4 : env3.cforKey = "") (h5 : env3.openaiKey ≠ "") :
    newClient env2 = Except.ok env2.cforKey ∧
    newClient env3 = Except.ok env3.openaiKey ∧
    chatStructured env1 model =
      { result := (zeroChatResult, some CforError.apiKeyMissing), calls := [] } ∧
    GenerateCmds env1 =
      { result := (zeroChatResult, some CforError.apiKeyMissing), calls := [] } ∧
    runIteration env1 keys goos ienv st =
      { recorded := [0], injectArg := none, outcome := IterOutcome.exitErr ExitMsg.apiKeyHint } := by
  have hc1 : newClient env1 = Except.error CforError.apiKeyMissing := by
    simp [newClient, h1, h2]
  have hchat : ∀ M, chatStructured env1 M =
      { result := (zeroChatResult, some CforError.apiKeyMissing), calls := [] } := by
    intro M; simp [chatStructured, hc1]
  have hgen : GenerateCmds env1 =
      { result := (zeroChatResult, some CforError.apiKeyMissing), calls := [] } := by
    simp [GenerateCmds, hm, hchat]
  refine ⟨by simp [newClient, h3], by simp [newClient, h4, h5], hchat model, hgen, ?_⟩
  simp [runIteration, hgen, errMsgFor, zeroChatResult]

/-- C7 witness: both credential variables empty for the client env, and the
two override-resolution cases at concrete envs. -/
theorem credentials_override_first_fail_fast_witness :
    newClient { cforKey := "a", openaiKey := "b", modelEnv := "", network := none } =
      Except.ok ({ cforKey := "a", openaiKey := "b", modelEnv := "", network := none } : ClientEnv).cforKey ∧
    newClient { cforKey := "", openaiKey := "b", modelEnv := "", network := none } =
      Except.ok ({ cforKey := "", openaiKey := "b", modelEnv := "", network := none } : ClientEnv).openaiKey ∧
    chatStructured { cforKey := "", openaiKey := "", modelEnv := "", network := none } "gpt-4o" =
      { result := (zeroChatResult, some CforError.apiKeyMissing), calls := [] } ∧
    GenerateCmds { cforKey := "", openaiKey := "", modelEnv := "", network := none } =
      { result := (zeroChatResult, some CforError.apiKeyMissing), calls := [] } ∧
    runIteration { cforKey := "", openaiKey := "", modelEnv := "", network := none } []
        "linux" ⟨true, true, true, fun _ => true⟩ ⟨⟨8⟩, []⟩ =
      { recorded := [0], injectArg := none, outcome := IterOutcome.exitErr ExitMsg.apiKeyHint } :=
  credentials_override_first_fail_fast _ _ _ "gpt-4o" [] "linux"
    ⟨true, true, true, fun _ => true⟩ ⟨⟨8⟩, []⟩ rfl rfl (by decide) (by decide) rfl (by decide)

/-! ## C4 — cost recording in the orchestrator loop -/

/-- C4 counterexample: with `GenerateCmds` failing (unsupported model
`gpt-3`), the iteration still passes the zero result's cost `0` to
`UpdateCost` — a ledger write occurs — contradicting the claim that no
ledger recording happens when the completion request failed. -/
theorem cost_recorded_despite_generate_error :
    (GenerateCmds { cforKey := "", openaiKey := "", modelEnv := "gpt-3", network := none }).result.2 =
        some (CforError.unsupportedModel "gpt-3") ∧
    (runIteration { cforKey := "", openaiKey := "", modelEnv := "gpt-3", network := none } []
        "linux" ⟨true, true, true, fun _ => true⟩ ⟨⟨8⟩, []⟩).recorded = [0] ∧
    (runIteration { cforKey := "", openaiKey := "", modelEnv := "gpt-3", network := none } []
        "linux" ⟨true, true, true, fun _ => true⟩ ⟨⟨8⟩, []⟩).recorded ≠ [] := by
  refine ⟨by decide, by decide, by decide⟩

/-- C4 amended: `UpdateCost` is called exactly once per iteration,
unconditionally and before the error check, with the cost carried by the
`GenerateCmds` result — the genuine estimate on success (recorded even when
selection later fails or is cancelled), and the zero value `0` when the
completion request itself failed. -/
theorem cost_recorded_unconditionally (cenv : ClientEnv) (keys : List String)
    (goos : String) (ienv : InjectEnv) (st : TermState) :
    (runIteration cenv keys goos ienv st).recorded = [(GenerateCmds cenv).result.1.cost] := by
  simp only [runIteration]
  split
  · rfl
  · split
    · rfl
    · rfl
    · rfl
    · rfl
    · split <;> rfl

/-! ## C1 / C3 — the terminal injector -/

/-- Invariant of the character-synthesis loop (entered with echo disabled):
it attempts the original-settings restore write exactly once on every exit
path, a successful restore write leaves the terminal at the snapshot, and
its result is never `platformUnsupported`. -/
theorem injectLoop_spec (env : InjectEnv) (ids : PlatformIds) (orig : Termios) :
    ∀ (cs : List Char) (i : Nat) (st : TermState),
      (injectLoop env ids orig cs i st).2.2.2 = 1 ∧
      (env.restoreOk = true → (injectLoop env ids orig cs i st).2.1.termios = orig) ∧
      (injectLoop env ids orig cs i st).1 ≠ InjectResult.platformUnsupported := by
  intro cs
  induction cs with
  | nil =>
    intro i st
    by_cases hr : env.restoreOk = true
    · simp [injectLoop, hr]
    · rw [Bool.not_eq_true] at hr
      simp [injectLoop, hr]
  | cons c cs ih =>
    intro i st
    by_cases hi : env.injectOk i = true
    · have h := ih (i + 1) { st with input := st.input ++ [c] }
      simpa [injectLoop, hi] using h
    · rw [Bool.not_eq_true] at hi
      by_cases hr : env.restoreOk = true <;> simp [injectLoop, hi, hr]

/-- C1: on every exit path of `injectToPrompt` reached after echo was
successfully disabled — full success, mid-injection synthesis failure, and
even a failing restore write — the restore of the pre-call snapshot is
attempted exactly once before returning, and whenever that restore write
succeeds the terminal is back at the pre-call snapshot. -/
theorem inject_restores_settings_once (goos : String) (env : InjectEnv) (cmd : String)
    (st : TermState) (hget : env.getOk = true) (hset : env.setEchoOk = true) :
    (injectToPrompt goos env cmd st).restoreAttempts = 1 ∧
    (env.restoreOk = true → (injectToPrompt goos env cmd st).state.termios = st.termios) := by
  have h := injectLoop_spec env (platformIds goos) st.termios cmd.data 0
    { st with termios := { lflag := Nat.ldiff st.termios.lflag ECHO } }
  simp only [injectToPrompt, hget, hset, if_true]
  exact ⟨h.1, h.2.1⟩

/-- C1 witness: a linux run whose second synthesis syscall fails; the
restore is attempted exactly once and the settings return to the
snapshot. -/
theorem inject_restores_settings_once_witness :
    (injectToPrompt "linux" ⟨true, true, true, fun i => decide (i ≠ 1)⟩ "ls"
        ⟨⟨11⟩, []⟩).restoreAttempts = 1 ∧
    ((⟨true, true, true, fun i => decide (i ≠ 1)⟩ : InjectEnv).restoreOk = true →
      (injectToPrompt "linux" ⟨true, true, true, fun i => decide (i ≠ 1)⟩ "ls"
          ⟨⟨11⟩, []⟩).state.termios = (⟨⟨11⟩, []⟩ : TermState).termios) :=
  inject_restores_settings_once "linux" ⟨true, true, true, fun i => decide (i ≠ 1)⟩ "ls"
    ⟨⟨11⟩, []⟩ rfl rfl

/-- Lemma: `injectToPrompt` never produces the specification's
`PlatformUnsupportedError`: no code path constructs it. -/
theorem injectToPrompt_never_platformUnsupported (goos : String) (env : InjectEnv)
    (cmd : String) (st : TermState) :
    (injectToPrompt goos env cmd st).result ≠ InjectResult.platformUnsupported := by
  by_cases hg : env.getOk = true
  · by_cases hs : env.setEchoOk = true
    · have h := (injectLoop_spec env (platformIds goos) st.termios cmd.data 0
        { st with termios := { lflag := Nat.ldiff st.termios.lflag ECHO } }).2.2
      simpa [injectToPrompt, hg, hs] using h
    · rw [Bool.not_eq_true] at hs
      simp [injectToPrompt, hg, hs]
  · rw [Bool.not_eq_true] at hg
    simp [injectToPrompt, hg]

/-- Every `injectToPrompt` call begins by attempting the get-settings
terminal-control operation with the platform-selected identifier. -/
theorem injectToPrompt_trace_head (goos : String) (env : InjectEnv) (cmd : String)
    (st : TermState) :
    (injectToPrompt goos env cmd st).trace.head? =
      some (TermOp.get (platformIds goos).getTermios) := by
  by_cases hg : env.getOk = true
  · by_cases hs : env.setEchoOk = true
    · simp [injectToPrompt, hg, hs]
    · rw [Bool.not_eq_true] at hs
      simp [injectToPrompt, hg, hs]
  · rw [Bool.not_eq_true] at hg
    simp [injectToPrompt, hg]

/-- C3 counterexample: on the unsupported platform `freebsd`,
`injectToPrompt` performs a terminal-control operation (the get-settings
attempt, issued with the zero-valued identifier) and does not return a
`PlatformUnsupportedError` — contradicting the claim that it fails closed
before any terminal-control operation. -/
theorem injector_unsupported_platform_proceeds :
    (injectToPrompt "freebsd" ⟨false, true, true, fun _ => true⟩ "ls" ⟨⟨11⟩, []⟩).trace =
        [TermOp.get 0] ∧
    (injectToPrompt "freebsd" ⟨false, true, true, fun _ => true⟩ "ls" ⟨⟨11⟩, []⟩).result ≠
        InjectResult.platformUnsupported := by
  decide

/-- C3 amended: when the running platform is neither linux nor darwin, the
`runtime.GOOS` switch (which has no default case) leaves all four numeric
identifiers at their zero value and `injectToPrompt` proceeds anyway: its
first action is the get-settings terminal-control attempt with identifier
0, and no `PlatformUnsupportedError` is ever returned (the source defines
no such error). -/
theorem injector_unknown_platform_uses_zero_ids (goos : String) (env : InjectEnv)
    (cmd : String) (st : TermState) (h1 : goos ≠ "linux") (h2 : goos ≠ "darwin") :
    platformIds goos = { getTermios := 0, setTermios := 0, tiocsti := 0, sysIoctl := 0 } ∧
    (injectToPrompt goos env cmd st).trace.head? = some (TermOp.get 0) ∧
    (injectToPrompt goos env cmd st).result ≠ InjectResult.platformUnsupported := by
  have hp : platformIds goos =
      { getTermios := 0, setTermios := 0, tiocsti := 0, sysIoctl := 0 } := by
    rw [platformIds, if_neg h1, if_neg h2]
  refine ⟨hp, ?_, injectToPrompt_never_platformUnsupported goos env cmd st⟩
  rw [injectToPrompt_trace_head, hp]

/-! ## C5 — cursor wrap-around arithmetic -/

/-- Helper: subtracting after reducing the left operand mod `n` agrees with
subtracting first. -/
theorem emod_sub_emod (a b n : Int) : (a % n - b) % n = (a - b) % n := by
  conv_lhs => rw [Int.sub_emod, Int.emod_emod_of_dvd _ dvd_rfl, ← Int.sub_emod]

/-- A single up-transition (either binding) from an in-range cursor computes
`(cursor - 1 + n) % n`. -/
theorem Update_nav_up (m : CmdSelector) (key : String) (hk : key = "up" ∨ key = "k")
    (h0 : 0 ≤ m.cursor) (h1 : m.cursor < (m.cmds.length : Int)) :
    m.Update key =
      some ({ m with
          cursor := (m.cursor - 1 + (m.cmds.length : Int)) % (m.cmds.length : Int) },
        false) := by
  have hn : (0 : Int) < (m.cmds.length : Int) := lt_of_le_of_lt h0 h1
  rcases hk with rfl | rfl <;>
  · rw [CmdSelector.Update, if_neg (by decide), if_pos (by decide)]
    by_cases hc : m.cursor > 0
    · have hx : (m.cursor - 1 + (m.cmds.length : Int)) % (m.cmds.length : Int) =
          m.cursor - 1 := by
        rw [Int.add_emod_self, Int.emod_eq_of_lt (by omega) (by omega)]
      rw [if_pos hc, hx]
    · have hc0 : m.cursor = 0 := by omega
      have hx : (m.cursor - 1 + (m.cmds.length : Int)) % (m.cmds.length : Int) =
          (m.cmds.length : Int) - 1 := by
        have h9 : m.cursor - 1 + (m.cmds.length : Int) = (m.cmds.length : Int) - 1 := by
          rw [hc0]; ring
        rw [h9, Int.emod_eq_of_lt (by omega) (by omega)]
      rw [if_neg hc, hx]

/-- A single down-transition (either binding) from an in-range cursor
computes `(cursor + 1) % n`. -/
theorem Update_nav_down (m : CmdSelector) (key : String) (hk : key = "down" ∨ key = "j")
    (h0 : 0 ≤ m.cursor) (h1 : m.cursor < (m.cmds.length : Int)) :
    m.Update key =
      some ({ m with cursor := (m.cursor + 1) % (m.cmds.length : Int) }, false) := by
  have hn : (0 : Int) < (m.cmds.length : Int) := lt_of_le_of_lt h0 h1
  rcases hk with rfl | rfl <;>
  · rw [CmdSelector.Update, if_neg (by decide), if_neg (by decide), if_pos (by decide)]
    by_cases hc : m.cursor < (m.cmds.length : Int) - 1
    · have hx : (m.cursor + 1) % (m.cmds.length : Int) = m.cursor + 1 :=
        Int.emod_eq_of_lt (by omega) (by omega)
      rw [if_pos hc, hx]
    · have hx : (m.cursor + 1) % (m.cmds.length : Int) = 0 := by
        have hc0 : m.cursor = (m.cmds.length : Int) - 1 := by omega
        have h9 : m.cursor + 1 = (m.cmds.length : Int) := by rw [hc0]; ring
        rw [h9, Int.emod_self]
      rw [if_neg hc, hx]

/-- After `k` consecutive down-transitions from an in-range state the cursor
is `(cursor + k) % n` and nothing else changes. -/
theorem iterKey_down_eq (k : Nat) : ∀ (m : CmdSelector), 0 ≤ m.cursor →
    m.cursor < (m.cmds.length : Int) →
    iterKey "down" k m =
      some { m with cursor := (m.cursor + (k : Int)) % (m.cmds.length : Int) } := by
  induction k with
  | zero =>
    intro m h0 h1
    have hx : (m.cursor + ((0 : Nat) : Int)) % (m.cmds.length : Int) = m.cursor := by
      push_cast
      rw [add_zero, Int.emod_eq_of_lt h0 h1]
    rw [iterKey, hx]
  | succ k ih =>
    intro m h0 h1
    have hn : (0 : Int) < (m.cmds.length : Int) := lt_of_le_of_lt h0 h1
    have hstep := ih { m with cursor := (m.cursor + 1) % (m.cmds.length : Int) }
      (Int.emod_nonneg _ (by omega)) (Int.emod_lt_of_pos _ hn)
    rw [iterKey, Update_nav_down m "down" (Or.inl rfl) h0 h1, Option.some_bind, hstep]
    have harg : ((m.cursor + 1) % (m.cmds.length : Int) + (k : Int)) % (m.cmds.length : Int) =
        (m.cursor + ((k : Int) + 1)) % (m.cmds.length : Int) := by
      rw [Int.emod_add_emod]; congr 1; ring
    simp only [harg]
    push_cast
    ring_nf

/-- After `k` consecutive up-transitions from an in-range state the cursor
is `(cursor - k) % n` and nothing else changes. -/
theorem iterKey_up_eq (k : Nat) : ∀ (m : CmdSelector), 0 ≤ m.cursor →
    m.cursor < (m.cmds.length : Int) →
    iterKey "up" k m =
      some { m with cursor := (m.cursor - (k : Int)) % (m.cmds.length : Int) } := by
  induction k with
  | zero =>
    intro m h0 h1
    have hx : (m.cursor - ((0 : Nat) : Int)) % (m.cmds.length : Int) = m.cursor := by
      push_cast
      rw [sub_zero, Int.emod_eq_of_lt h0 h1]
    rw [iterKey, hx]
  | succ k ih =>
    intro m h0 h1
    have hn : (0 : Int) < (m.cmds.length : Int) := lt_of_le_of_lt h0 h1
    have hstep := ih
      { m with cursor := (m.cursor - 1 + (m.cmds.length : Int)) % (m.cmds.length : Int) }
      (Int.emod_nonneg _ (by omega)) (Int.emod_lt_of_pos _ hn)
    rw [iterKey, Update_nav_up m "up" (Or.inl rfl) h0 h1, Option.some_bind, hstep]
    have harg : ((m.cursor - 1 + (m.cmds.length : Int)) % (m.cmds.length : Int) - (k : Int)) %
          (m.cmds.length : Int) =
        (m.cursor - ((k : Int) + 1)) % (m.cmds.length : Int) := by
      rw [emod_sub_emod]
      have h9 : m.cursor - 1 + (m.cmds.length : Int) - (k : Int) =
          m.cursor - ((k : Int) + 1) + (m.cmds.length : Int) := by ring
      rw [h9, Int.add_emod_self]
    simp only [harg]
    push_cast
    ring_nf

/-- C5: from the initial cursor 0 on a non-empty CommandSet, `k` consecutive
down-transitions leave the cursor at `k mod n` and `k` consecutive
up-transitions at `(-k) mod n`; and from any in-range state a single
up-transition computes `(cursor - 1 + n) mod n` while a single
down-transition computes `(cursor + 1) mod n` — wrapping at both ends, no
saturation. -/
theorem selector_cursor_wraps (cmds : List CmdEntry) (k : Nat) (m : CmdSelector)
    (hne : cmds ≠ []) (hm : m.cmds.length = cmds.length)
    (h0 : 0 ≤ m.cursor) (h1 : m.cursor < (cmds.length : Int)) :
    (iterKey "down" k (NewCmdSelector (commentedCmds cmds))).map (fun s => s.cursor) =
        some ((k : Int) % (cmds.length : Int)) ∧
    (iterKey "up" k (NewCmdSelector (commentedCmds cmds))).map (fun s => s.cursor) =
        some ((-(k : Int)) % (cmds.length : Int)) ∧
    (m.Update "up").map (fun p => p.1.cursor) =
        some ((m.cursor - 1 + (cmds.length : Int)) % (cmds.length : Int)) ∧
    (m.Update "down").map (fun p => p.1.cursor) =
        some ((m.cursor + 1) % (cmds.length : Int)) := by
  have hlen : (commentedCmds cmds).length = cmds.length := List.length_map _ _
  have hpos : 0 < cmds.length := List.length_pos.mpr hne
  have hcur : (0 : Int) < ((commentedCmds cmds).length : Int) := by
    rw [hlen]; exact_mod_cast hpos
  have hm' : (m.cmds.length : Int) = (cmds.length : Int) := by exact_mod_cast hm
  have h1' : m.cursor < (m.cmds.length : Int) := by rw [hm']; exact h1
  refine ⟨?_, ?_, ?_, ?_⟩
  · rw [iterKey_down_eq k (NewCmdSelector (commentedCmds cmds)) (by exact le_refl 0) hcur]
    simp [NewCmdSelector, hlen]
  · rw [iterKey_up_eq k (NewCmdSelector (commentedCmds cmds)) (by exact le_refl 0) hcur]
    simp [NewCmdSelector, hlen]
  · rw [Update_nav_up m "up" (Or.inl rfl) h0 h1']
    simp [hm']
  · rw [Update_nav_down m "down" (Or.inl rfl) h0 h1']
    simp [hm']

/-- C5 witness: a 3-entry set, 4 steps in each direction from the initial
state, and single steps from the in-range cursor 2. -/
theorem selector_cursor_wraps_witness :
    (iterKey "down" 4
          (NewCmdSelector (commentedCmds [⟨"a", "c"⟩, ⟨"b", ""⟩, ⟨"ccc", "x"⟩]))).map
        (fun s => s.cursor) =
      some (((4 : Nat) : Int) %
        (([⟨"a", "c"⟩, ⟨"b", ""⟩, ⟨"ccc", "x"⟩] : List CmdEntry).length : Int)) ∧
    (iterKey "up" 4
          (NewCmdSelector (commentedCmds [⟨"a", "c"⟩, ⟨"b", ""⟩, ⟨"ccc", "x"⟩]))).map
        (fun s => s.cursor) =
      some ((-((4 : Nat) : Int)) %
        (([⟨"a", "c"⟩, ⟨"b", ""⟩, ⟨"ccc", "x"⟩] : List CmdEntry).length : Int)) ∧
    ((⟨commentedCmds [⟨"a", "c"⟩, ⟨"b", ""⟩, ⟨"ccc", "x"⟩], 2, "", false, false⟩ :
          CmdSelector).Update "up").map (fun p => p.1.cursor) =
      some ((2 - 1 + (([⟨"a", "c"⟩, ⟨"b", ""⟩, ⟨"ccc", "x"⟩] : List CmdEntry).length : Int)) %
        (([⟨"a", "c"⟩, ⟨"b", ""⟩, ⟨"ccc", "x"⟩] : List CmdEntry).length : Int)) ∧
    ((⟨commentedCmds [⟨"a", "c"⟩, ⟨"b", ""⟩, ⟨"ccc", "x"⟩], 2, "", false, false⟩ :
          CmdSelector).Update "down").map (fun p => p.1.cursor) =
      some ((2 + 1) %
        (([⟨"a", "c"⟩, ⟨"b", ""⟩, ⟨"ccc", "x"⟩] : List CmdEntry).length : Int)) :=
  selector_cursor_wraps [⟨"a", "c"⟩, ⟨"b", ""⟩, ⟨"ccc", "x"⟩] 4
    ⟨commentedCmds [⟨"a", "c"⟩, ⟨"b", ""⟩, ⟨"ccc", "x"⟩], 2, "", false, false⟩
    (by decide) rfl (by decide) (by decide)

/-! ## C9 — the resolved selection is the bare command text -/

/-- In-range indexing through `listGetStr` hits the list. -/
theorem listGetStr_lt (l : List String) (i : Nat) (h : i < l.length) :
    listGetStr l i = some (l.getD i "") := by
  rw [listGetStr, if_neg (by omega : ¬ ((i : Int) < 0)), Int.toNat_natCast,
    List.get?_eq_getElem?, List.getElem?_eq_getElem h, List.getD_eq_getElem?_getD,
    List.getElem?_eq_getElem h]
  rfl

/-- In-range indexing through `listGetEntry` hits the list. -/
theorem listGetEntry_lt (l : List CmdEntry) (i : Nat) (h : i < l.length) :
    listGetEntry l i = some (l.getD i { cmd := "", comment := "" }) := by
  rw [listGetEntry, if_neg (by omega : ¬ ((i : Int) < 0)), Int.toNat_natCast,
    List.get?_eq_getElem?, List.getElem?_eq_getElem h, List.getD_eq_getElem?_getD,
    List.getElem?_eq_getElem h]
  rfl

/-- C9: from any live selector state over the displayed rows of a non-empty
CommandSet with the cursor at `i`, a select key terminates the run and
`SelectCmd`'s resolution step returns exactly `entries[i].command` — the
bare command text, not the padded, comment-annotated display row — and the
orchestrator hands exactly the resolved string to the injector. -/
theorem selected_resolves_to_bare_command (cmds : List CmdEntry) (m : CmdSelector) (i : Nat)
    (cenv : ClientEnv) (keys : List String) (s : String) (goos : String) (ienv : InjectEnv)
    (st : TermState)
    (h1 : m.cmds = commentedCmds cmds) (h2 : m.cursor = (i : Int)) (h3 : i < cmds.length)
    (h4 : m.quit = false) (h5 : m.rerun = false)
    (hgen : (GenerateCmds cenv).result.2 = none)
    (hsel : SelectCmd (GenerateCmds cenv).result.1.message.cmds keys = SelOut.ok s) :
    ((runKeys m ["enter"]).final?).map (selectFinish cmds) =
        some (SelOut.ok ((cmds.getD i { cmd := "", comment := "" }).cmd)) ∧
    (runIteration cenv keys goos ienv st).injectArg = some s := by
  constructor
  · have hlen9 : (commentedCmds cmds).length = cmds.length := List.length_map _ _
    have hi' : i < (commentedCmds cmds).length := by rw [hlen9]; exact h3
    have hup : m.Update "enter" =
        some ({ m with selected := (commentedCmds cmds).getD i "" }, true) := by
      rw [CmdSelector.Update, if_neg (by decide), if_neg (by decide), if_neg (by decide),
        if_neg (by decide), if_pos (by decide), h1, h2, listGetStr_lt _ _ hi']
    simp [runKeys, hup, RunOut.final?, selectFinish, h2, h4, h5, listGetEntry_lt _ _ h3]
  · simp only [runIteration, hgen, hsel]
    split <;> rfl

/-- C9 witness: the spec's end-to-end scenario — two suggested commands,
select key on cursor 0 resolves to the bare `"ls -lt"` and the injector is
invoked with exactly that string. -/
theorem selected_resolves_to_bare_command_witness :
    ((runKeys
          (⟨commentedCmds [⟨"ls -lt", "sorted by mtime"⟩, ⟨"ls", ""⟩], 0, "", false, false⟩ :
            CmdSelector) ["enter"]).final?).map
        (selectFinish [⟨"ls -lt", "sorted by mtime"⟩, ⟨"ls", ""⟩]) =
      some (SelOut.ok
        ((([⟨"ls -lt", "sorted by mtime"⟩, ⟨"ls", ""⟩] : List CmdEntry).getD 0
            { cmd := "", comment := "" }).cmd)) ∧
    (runIteration
        { cforKey := "key", openaiKey := "", modelEnv := "",
          network := some (some ⟨[⟨"ls -lt", "sorted by mtime"⟩, ⟨"ls", ""⟩]⟩,
            ⟨1000, 0, 500⟩) }
        ["enter"] "linux" ⟨true, true, true, fun _ => true⟩ ⟨⟨8⟩, []⟩).injectArg =
      some "ls -lt" :=
  selected_resolves_to_bare_command [⟨"ls -lt", "sorted by mtime"⟩, ⟨"ls", ""⟩]
    ⟨commentedCmds [⟨"ls -lt", "sorted by mtime"⟩, ⟨"ls", ""⟩], 0, "", false, false⟩ 0
    { cforKey := "key", openaiKey := "", modelEnv := "",
      network := some (some ⟨[⟨"ls -lt", "sorted by mtime"⟩, ⟨"ls", ""⟩]⟩, ⟨1000, 0, 500⟩) }
    ["enter"] "ls -lt" "linux" ⟨true, true, true, fun _ => true⟩ ⟨⟨8⟩, []⟩
    rfl rfl (by decide) rfl rfl rfl (by decide)

/-- C3 amended-claim witness at the concrete platform `windows`. -/
theorem injector_unknown_platform_uses_zero_ids_witness :
    platformIds "windows" = { getTermios := 0, setTermios := 0, tiocsti := 0, sysIoctl := 0 } ∧
    (injectToPrompt "windows" ⟨true, true, true, fun _ => true⟩ "x" ⟨⟨0⟩, []⟩).trace.head? =
        some (TermOp.get 0) ∧
    (injectToPrompt "windows" ⟨true, true, true, fun _ => true⟩ "x" ⟨⟨0⟩, []⟩).result ≠
        InjectResult.platformUnsupported :=
  injector_unknown_platform_uses_zero_ids "windows" ⟨true, true, true, fun _ => true⟩ "x"
    ⟨⟨0⟩, []⟩ (by decide) (by decide)
